import Mathlib

/-!
Shallow embedding of the go-lang-techdebt-scanner scoring pipeline.

Real-valued quantities of the Python source are modelled as rationals (ℚ),
so every definition is executable and every comparison decidable.
-/

namespace TechDebt

/-! ## `src/scoring/normalizer.py` — `ScoreNormalizer` -/

namespace ScoreNormalizer

/-- `ScoreNormalizer.normalize`: map `value` linearly from
`[min_value, max_value]` onto `[0, 100]`, clamping to that range;
a degenerate range (`max_value == min_value`) returns `0`. -/
def normalize (value min_value max_value : ℚ) : ℚ :=
  if max_value = min_value then 0
  else max 0 (min 100 (((value - min_value) / (max_value - min_value)) * 100))

/-- `ScoreNormalizer.normalize_inverse`: `100 - normalize(value, min, max)`. -/
def normalize_inverse (value min_value max_value : ℚ) : ℚ :=
  100 - normalize value min_value max_value

/-- `ScoreNormalizer.normalize_complexity`: delegates to `normalize`. -/
def normalize_complexity (value ideal worst : ℚ) : ℚ :=
  normalize value ideal worst

/-- `ScoreNormalizer.normalize_percentage`: delegates to `normalize`. -/
def normalize_percentage (value ideal worst : ℚ) : ℚ :=
  normalize value ideal worst

/-- `ScoreNormalizer.normalize_inverse_percentage`: delegates to
`normalize_inverse` with the reference points swapped. -/
def normalize_inverse_percentage (value ideal worst : ℚ) : ℚ :=
  normalize_inverse value worst ideal

/-- `ScoreNormalizer.normalize_count`: delegates to `normalize`. -/
def normalize_count (value ideal worst : ℚ) : ℚ :=
  normalize value ideal worst

/-- `ScoreNormalizer.normalize_ratio`: if `ideal > worst` the direction is
descending (`normalize_inverse value worst ideal`), otherwise ascending
(`normalize value ideal worst`). -/
def normalize_ratio (value ideal worst : ℚ) : ℚ :=
  if ideal > worst then normalize_inverse value worst ideal
  else normalize value ideal worst

/-- `ScoreNormalizer.normalize_churn`: delegates to `normalize`. -/
def normalize_churn (value ideal worst : ℚ) : ℚ :=
  normalize value ideal worst

end ScoreNormalizer

lemma normalize_nonneg (v lo hi : ℚ) : 0 ≤ ScoreNormalizer.normalize v lo hi := by
  unfold ScoreNormalizer.normalize
  split
  · exact le_refl 0
  · exact le_max_left 0 _

lemma normalize_le_100 (v lo hi : ℚ) : ScoreNormalizer.normalize v lo hi ≤ 100 := by
  unfold ScoreNormalizer.normalize
  split
  · norm_num
  · exact max_le (by norm_num) (min_le_left 100 _)

/-! ## `src/scoring/aggregator.py` — `ScoreAggregator` -/

/-- The sub-fields of the `metrics` mapping that `ScoreAggregator.aggregate`
reads: `metrics['complexity']['overall_score']`, `metrics['duplication']['score']`,
`metrics['test_quality']['overall_score']`, `metrics['dependencies']['score']`,
`metrics['churn']['score']`, `metrics['readability']['score']`. -/
structure Metrics where
  complexity_overall_score : ℚ
  duplication_score : ℚ
  test_quality_overall_score : ℚ
  dependencies_score : ℚ
  churn_score : ℚ
  readability_score : ℚ

/-- The `weights` mapping of the configuration, over the six fixed keys. -/
structure Weights where
  complexity : ℚ
  duplication : ℚ
  test_quality : ℚ
  dependencies : ℚ
  churn : ℚ
  readability : ℚ

/-- `sum(weights.values())` for a weights mapping over the six fixed keys. -/
def Weights.total (w : Weights) : ℚ :=
  w.complexity + w.duplication + w.test_quality + w.dependencies + w.churn +
    w.readability

/-- The `category_scores` dictionary built by `ScoreAggregator.aggregate`. -/
structure CategoryScores where
  complexity : ℚ
  duplication : ℚ
  test_quality : ℚ
  dependencies : ℚ
  churn : ℚ
  readability : ℚ

namespace ScoreAggregator

/-- `ScoreAggregator.aggregate`: extract the six category scores from the
metrics mapping and return `(overall_score, category_scores)` where
`overall_score` is the weight-scaled sum divided by `sum(weights.values())`. -/
def aggregate (weights : Weights) (metrics : Metrics) : ℚ × CategoryScores :=
  let category_scores : CategoryScores :=
    { complexity := metrics.complexity_overall_score
      duplication := metrics.duplication_score
      test_quality := metrics.test_quality_overall_score
      dependencies := metrics.dependencies_score
      churn := metrics.churn_score
      readability := metrics.readability_score }
  let overall_score : ℚ :=
    (category_scores.complexity * weights.complexity +
     category_scores.duplication * weights.duplication +
     category_scores.test_quality * weights.test_quality +
     category_scores.dependencies * weights.dependencies +
     category_scores.churn * weights.churn +
     category_scores.readability * weights.readability) / weights.total
  (overall_score, category_scores)

end ScoreAggregator

/-! ## `src/scoring/thresholds.py` — `DebtThresholds` -/

/-- The `thresholds` section of the configuration. -/
structure Thresholds where
  low : ℚ
  medium : ℚ
  high : ℚ

namespace DebtThresholds

/-- `DebtThresholds.get_debt_level`: `'high'` when `score >= thresholds.high`,
else `'medium'` when `score >= thresholds.medium`, else `'low'`. -/
def get_debt_level (thresholds : Thresholds) (score : ℚ) : String :=
  if score ≥ thresholds.high then "high"
  else if score ≥ thresholds.medium then "medium"
  else "low"

end DebtThresholds

/-! ## `src/metrics/dependencies.py` — `DependencyAnalyzer`

`GoToolRunner.analyze_dependencies` and the `govulncheck` subprocess are
environment effects; their results are passed to `analyze` as arguments.
A result dict `{'error': ...}` is modelled as `Except.error`. -/

/-- The payload of a successful `GoToolRunner.analyze_dependencies` call:
the `dependencies` and `outdated` lists. -/
structure DepInfo where
  dependencies : List String
  outdated : List String

/-- The `dependencies` section of the configuration. -/
structure DepConfig where
  ideal_outdated : ℚ
  worst_outdated : ℚ
  worst_vulnerabilities : ℚ
  outdated_weight : ℚ
  vulnerable_weight : ℚ

/-- The dict returned by `DependencyAnalyzer.analyze`. Keys present only in
the module branch are `Option`s (`none` = key absent in the error branch). -/
structure DependencyResult where
  is_module : Bool
  dependency_count : ℕ
  outdated_count : ℕ
  outdated_percentage : ℚ
  vulnerable_count : ℕ
  score : ℚ
  dependencies : Option (List String)
  outdated_dependencies : Option (List String)
  vulnerable_dependencies : Option (List String)
  outdated_score : Option ℚ
  vulnerable_score : Option ℚ

/-- `'vulnerability' in line.lower()`: the lowercased line, split on the
needle, has more than one part exactly when the needle occurs in it. -/
def mentionsVulnerability (line : String) : Bool :=
  (line.toLower.splitOn "vulnerability").length > 1

namespace DependencyAnalyzer

/-- `DependencyAnalyzer.analyze`.  `dependency_info` is the result of
`GoToolRunner.analyze_dependencies`; `govulncheck_stdout` is `some` of the
stdout lines when the `govulncheck` subprocess ran, `none` when it raised
(`SubprocessError` / `FileNotFoundError`). -/
def analyze (config : DepConfig) (dependency_info : Except String DepInfo)
    (govulncheck_stdout : Option (List String)) : DependencyResult :=
  match dependency_info with
  | Except.error _ =>
      { is_module := false
        dependency_count := 0
        outdated_count := 0
        outdated_percentage := 0
        vulnerable_count := 0
        score := 0
        dependencies := none
        outdated_dependencies := none
        vulnerable_dependencies := none
        outdated_score := none
        vulnerable_score := none }
  | Except.ok info =>
      let dependency_count := info.dependencies.length
      let outdated_count := info.outdated.length
      let outdated_percentage : ℚ :=
        ((outdated_count : ℚ) / ((max 1 dependency_count : ℕ) : ℚ)) * 100
      let vulnerable_deps : List String :=
        match govulncheck_stdout with
        | none => []
        | some lines => lines.filter mentionsVulnerability
      let vulnerable_count := vulnerable_deps.length
      let outdated_score := ScoreNormalizer.normalize_percentage
        outdated_percentage config.ideal_outdated config.worst_outdated
      let vulnerable_score := ScoreNormalizer.normalize_count
        (vulnerable_count : ℚ) 0 config.worst_vulnerabilities
      let overall_score :=
        (outdated_score * config.outdated_weight +
         vulnerable_score * config.vulnerable_weight) /
        (config.outdated_weight + config.vulnerable_weight)
      { is_module := true
        dependency_count := dependency_count
        outdated_count := outdated_count
        outdated_percentage := outdated_percentage
        vulnerable_count := vulnerable_count
        score := overall_score
        dependencies := some info.dependencies
        outdated_dependencies := some info.outdated
        vulnerable_dependencies := some vulnerable_deps
        outdated_score := some outdated_score
        vulnerable_score := some vulnerable_score }

end DependencyAnalyzer

/-! ## `src/metrics/test_quality.py` — `TestQualityAnalyzer`

`GoToolRunner.run_go_test` and `os.path.relpath` are environment effects;
the coverage dict's keys and the relative-path function are arguments. -/

/-- `os.path.basename`: the component after the last `/`. -/
def basename (p : String) : String :=
  (p.splitOn "/").getLastD ""

/-- An entry of the `covered_files` list. -/
structure CoveredFile where
  file : String
  coverage : ℚ

/-- The `test_quality` section of the configuration. -/
structure TQConfig where
  ideal_coverage : ℚ
  worst_coverage : ℚ
  ideal_ratio : ℚ
  worst_ratio : ℚ
  coverage_weight : ℚ
  ratio_weight : ℚ

/-- The dict returned by `TestQualityAnalyzer.analyze`. -/
structure TestQualityResult where
  test_file_count : ℕ
  files_with_tests : ℕ
  files_without_tests : ℕ
  average_coverage : ℚ
  test_to_code_ratio : ℚ
  covered_files : List CoveredFile
  uncovered_files : List String
  coverage_score : ℚ
  ratio_score : ℚ
  overall_score : ℚ

namespace TestQualityAnalyzer

/-- The `for file_path in go_files` loop of `TestQualityAnalyzer.analyze`:
accumulates `(files_with_tests, total_coverage, covered_files,
uncovered_files)`.  A file whose path ends in `_test.go` is skipped; a file
whose repo-relative path is a key of the coverage dict contributes the
placeholder coverage `70.0`. -/
def coverageScan (coverage_keys : List String) (relPath : String → String) :
    List String → ℕ × ℚ × List CoveredFile × List String
  | [] => (0, 0, [], [])
  | f :: rest =>
      if f.endsWith "_test.go" then coverageScan coverage_keys relPath rest
      else if coverage_keys.contains (relPath f) then
        let r := coverageScan coverage_keys relPath rest
        (r.1 + 1, r.2.1 + 70, ⟨relPath f, 70⟩ :: r.2.2.1, r.2.2.2)
      else
        let r := coverageScan coverage_keys relPath rest
        (r.1, r.2.1, r.2.2.1, relPath f :: r.2.2.2)

/-- `TestQualityAnalyzer.analyze`.  `coverage_keys` are the keys of the dict
returned by `GoToolRunner.run_go_test`; `relPath f` is
`os.path.relpath(f, repo_path)`. -/
def analyze (config : TQConfig) (relPath : String → String)
    (coverage_keys : List String) (go_files : List String) :
    TestQualityResult :=
  let total_files := go_files.length
  let test_files := go_files.filter (fun f => (basename f).endsWith "_test.go")
  let test_file_count := test_files.length
  let scan := coverageScan coverage_keys relPath go_files
  let files_with_tests := scan.1
  let total_coverage := scan.2.1
  let covered_files := scan.2.2.1
  let uncovered_files := scan.2.2.2
  let avg_coverage := total_coverage / ((max 1 files_with_tests : ℕ) : ℚ)
  let test_to_code_ratio : ℚ :=
    (test_file_count : ℚ) / ((max 1 (total_files - test_file_count) : ℕ) : ℚ)
  let coverage_score := ScoreNormalizer.normalize_inverse_percentage
    avg_coverage config.ideal_coverage config.worst_coverage
  let ratio_score := ScoreNormalizer.normalize_ratio
    test_to_code_ratio config.ideal_ratio config.worst_ratio
  let overall_score :=
    (coverage_score * config.coverage_weight +
     ratio_score * config.ratio_weight) /
    (config.coverage_weight + config.ratio_weight)
  { test_file_count := test_file_count
    files_with_tests := files_with_tests
    files_without_tests := uncovered_files.length
    average_coverage := avg_coverage
    test_to_code_ratio := test_to_code_ratio
    covered_files := covered_files
    uncovered_files := uncovered_files
    coverage_score := coverage_score
    ratio_score := ratio_score
    overall_score := overall_score }

end TestQualityAnalyzer

lemma coverageScan_cons (keys : List String) (rp : String → String)
    (f : String) (rest : List String) :
    TestQualityAnalyzer.coverageScan keys rp (f :: rest) =
      if f.endsWith "_test.go" then TestQualityAnalyzer.coverageScan keys rp rest
      else if keys.contains (rp f) then
        let r := TestQualityAnalyzer.coverageScan keys rp rest
        (r.1 + 1, r.2.1 + 70, ⟨rp f, 70⟩ :: r.2.2.1, r.2.2.2)
      else
        let r := TestQualityAnalyzer.coverageScan keys rp rest
        (r.1, r.2.1, r.2.2.1, rp f :: r.2.2.2) := rfl

lemma coverageScan_total_eq (keys : List String) (rp : String → String)
    (files : List String) :
    (TestQualityAnalyzer.coverageScan keys rp files).2.1 =
      70 * ((TestQualityAnalyzer.coverageScan keys rp files).1 : ℚ) := by
  induction files with
  | nil => simp [TestQualityAnalyzer.coverageScan]
  | cons f rest ih =>
    rw [coverageScan_cons]
    split_ifs with h1 h2
    · exact ih
    · simp only []
      push_cast
      rw [ih]
      ring
    · exact ih

lemma coverageScan_covered_70 (keys : List String) (rp : String → String)
    (files : List String) :
    ∀ c ∈ (TestQualityAnalyzer.coverageScan keys rp files).2.2.1,
      c.coverage = 70 := by
  induction files with
  | nil => simp [TestQualityAnalyzer.coverageScan]
  | cons f rest ih =>
    rw [coverageScan_cons]
    split_ifs with h1 h2
    · exact ih
    · intro c hc
      rcases List.mem_cons.mp hc with h | h
      · rw [h]
      · exact ih c h
    · exact ih

lemma coverageScan_count_pos (keys : List String) (rp : String → String)
    (files : List String) (f : String) (hf : f ∈ files)
    (h1 : f.endsWith "_test.go" = false)
    (h2 : keys.contains (rp f) = true) :
    1 ≤ (TestQualityAnalyzer.coverageScan keys rp files).1 := by
  induction files with
  | nil => cases hf
  | cons g rest ih =>
    rw [coverageScan_cons]
    rcases List.mem_cons.mp hf with h | h
    · subst h
      rw [if_neg (by simp [h1]), if_pos h2]
      exact Nat.le_add_left 1 _
    · split_ifs with hg1 hg2
      · exact ih h
      · exact le_trans (ih h) (Nat.le_succ _)
      · exact ih h

lemma normalize_inverse_nonneg (v lo hi : ℚ) :
    0 ≤ ScoreNormalizer.normalize_inverse v lo hi := by
  unfold ScoreNormalizer.normalize_inverse
  have := normalize_le_100 v lo hi
  linarith

lemma normalize_inverse_le_100 (v lo hi : ℚ) :
    ScoreNormalizer.normalize_inverse v lo hi ≤ 100 := by
  unfold ScoreNormalizer.normalize_inverse
  have := normalize_nonneg v lo hi
  linarith

/-! ## Claim theorems -/

/-- C2: every normalization function is total and returns a value in
`[0,100]` inclusive, and when `min_value ≠ max_value`, `normalize` equals
`clamp(((value - min_value) / (max_value - min_value)) * 100, 0, 100)`. -/
theorem normalizer_total_range (v lo hi i w : ℚ) :
    (0 ≤ ScoreNormalizer.normalize v lo hi ∧
      ScoreNormalizer.normalize v lo hi ≤ 100) ∧
    (0 ≤ ScoreNormalizer.normalize_inverse v lo hi ∧
      ScoreNormalizer.normalize_inverse v lo hi ≤ 100) ∧
    (0 ≤ ScoreNormalizer.normalize_complexity v i w ∧
      ScoreNormalizer.normalize_complexity v i w ≤ 100) ∧
    (0 ≤ ScoreNormalizer.normalize_percentage v i w ∧
      ScoreNormalizer.normalize_percentage v i w ≤ 100) ∧
    (0 ≤ ScoreNormalizer.normalize_inverse_percentage v i w ∧
      ScoreNormalizer.normalize_inverse_percentage v i w ≤ 100) ∧
    (0 ≤ ScoreNormalizer.normalize_count v i w ∧
      ScoreNormalizer.normalize_count v i w ≤ 100) ∧
    (0 ≤ ScoreNormalizer.normalize_ratio v i w ∧
      ScoreNormalizer.normalize_ratio v i w ≤ 100) ∧
    (0 ≤ ScoreNormalizer.normalize_churn v i w ∧
      ScoreNormalizer.normalize_churn v i w ≤ 100) ∧
    (lo ≠ hi →
      ScoreNormalizer.normalize v lo hi =
        max 0 (min 100 ((v - lo) / (hi - lo) * 100))) := by
  refine ⟨⟨normalize_nonneg v lo hi, normalize_le_100 v lo hi⟩,
    ⟨normalize_inverse_nonneg v lo hi, normalize_inverse_le_100 v lo hi⟩,
    ⟨normalize_nonneg v i w, normalize_le_100 v i w⟩,
    ⟨normalize_nonneg v i w, normalize_le_100 v i w⟩,
    ⟨normalize_inverse_nonneg v w i, normalize_inverse_le_100 v w i⟩,
    ⟨normalize_nonneg v i w, normalize_le_100 v i w⟩,
    ?_,
    ⟨normalize_nonneg v i w, normalize_le_100 v i w⟩,
    ?_⟩
  · unfold ScoreNormalizer.normalize_ratio
    split
    · exact ⟨normalize_inverse_nonneg v w i, normalize_inverse_le_100 v w i⟩
    · exact ⟨normalize_nonneg v i w, normalize_le_100 v i w⟩
  · intro h
    unfold ScoreNormalizer.normalize
    rw [if_neg (Ne.symm h)]

/-- C2 witness: the range bounds and the affine-clamp formula evaluated at
`value = 30`, `min = 0`, `max = 100`. -/
theorem normalizer_total_range_witness :
    ((0 : ℚ) ≠ 100) ∧
      ScoreNormalizer.normalize 30 0 100 =
        max 0 (min 100 ((30 - 0) / (100 - 0) * 100)) :=
  ⟨by norm_num,
   (normalizer_total_range 30 0 100 1 10).2.2.2.2.2.2.2.2 (by norm_num)⟩

/-- C1: for every metrics mapping with the six fixed categories and every
weights mapping over the six keys with nonzero total,
`ScoreAggregator.aggregate` returns `overall_score` equal to the weighted
mean `Σ(category_scores[c] * weights[c]) / Σ(weights[c])`; with all six
weights equal to `1` it is the unweighted arithmetic mean of the six
category scores. -/
theorem aggregate_weighted_mean (w : Weights) (m : Metrics)
    (h : w.total ≠ 0) :
    (ScoreAggregator.aggregate w m).1 =
      ((ScoreAggregator.aggregate w m).2.complexity * w.complexity +
       (ScoreAggregator.aggregate w m).2.duplication * w.duplication +
       (ScoreAggregator.aggregate w m).2.test_quality * w.test_quality +
       (ScoreAggregator.aggregate w m).2.dependencies * w.dependencies +
       (ScoreAggregator.aggregate w m).2.churn * w.churn +
       (ScoreAggregator.aggregate w m).2.readability * w.readability) /
        w.total ∧
    (w = ⟨1, 1, 1, 1, 1, 1⟩ →
      (ScoreAggregator.aggregate w m).1 =
        (m.complexity_overall_score + m.duplication_score +
         m.test_quality_overall_score + m.dependencies_score +
         m.churn_score + m.readability_score) / 6) := by
  constructor
  · rfl
  · rintro rfl
    show (_ * 1 + _ * 1 + _ * 1 + _ * 1 + _ * 1 + _ * 1) / Weights.total _ = _
    unfold Weights.total
    norm_num

/-- C1 witness: scores `{complexity:80, duplication:20, test_quality:50,
dependencies:0, churn:40, readability:60}` with all weights `1` give
overall `(80+20+50+0+40+60)/6 = 125/3 = 41.666...`. -/
theorem aggregate_weighted_mean_witness :
    (ScoreAggregator.aggregate ⟨1, 1, 1, 1, 1, 1⟩
        ⟨80, 20, 50, 0, 40, 60⟩).1 = 125 / 3 := by
  have h := (aggregate_weighted_mean ⟨1, 1, 1, 1, 1, 1⟩
    ⟨80, 20, 50, 0, 40, 60⟩ (by norm_num [Weights.total])).2 rfl
  rw [h]
  norm_num

/-- C7: when each of the six category scores lies in `[0,100]` and the six
weights are nonnegative and not all zero, the aggregated `overall_score`
lies in `[0,100]`. -/
theorem aggregate_score_in_range (w : Weights) (m : Metrics)
    (hs : (0 ≤ m.complexity_overall_score ∧
            m.complexity_overall_score ≤ 100) ∧
          (0 ≤ m.duplication_score ∧ m.duplication_score ≤ 100) ∧
          (0 ≤ m.test_quality_overall_score ∧
            m.test_quality_overall_score ≤ 100) ∧
          (0 ≤ m.dependencies_score ∧ m.dependencies_score ≤ 100) ∧
          (0 ≤ m.churn_score ∧ m.churn_score ≤ 100) ∧
          (0 ≤ m.readability_score ∧ m.readability_score ≤ 100))
    (hw : 0 ≤ w.complexity ∧ 0 ≤ w.duplication ∧ 0 ≤ w.test_quality ∧
          0 ≤ w.dependencies ∧ 0 ≤ w.churn ∧ 0 ≤ w.readability)
    (hnz : ¬ (w.complexity = 0 ∧ w.duplication = 0 ∧ w.test_quality = 0 ∧
              w.dependencies = 0 ∧ w.churn = 0 ∧ w.readability = 0)) :
    0 ≤ (ScoreAggregator.aggregate w m).1 ∧
      (ScoreAggregator.aggregate w m).1 ≤ 100 := by
  obtain ⟨⟨a0, a1⟩, ⟨b0, b1⟩, ⟨c0, c1⟩, ⟨d0, d1⟩, ⟨e0, e1⟩, ⟨f0, f1⟩⟩ := hs
  obtain ⟨wa, wb, wc, wd, we, wf⟩ := hw
  have hT : 0 < w.total := by
    rcases lt_or_eq_of_le (show (0 : ℚ) ≤ w.total by
      unfold Weights.total; linarith) with h | h
    · exact h
    · exfalso
      apply hnz
      unfold Weights.total at h
      refine ⟨by linarith, by linarith, by linarith, by linarith,
        by linarith, by linarith⟩
  have key : (ScoreAggregator.aggregate w m).1 =
      (m.complexity_overall_score * w.complexity +
       m.duplication_score * w.duplication +
       m.test_quality_overall_score * w.test_quality +
       m.dependencies_score * w.dependencies +
       m.churn_score * w.churn +
       m.readability_score * w.readability) / w.total := rfl
  rw [key]
  have p1 := mul_nonneg a0 wa
  have p2 := mul_nonneg b0 wb
  have p3 := mul_nonneg c0 wc
  have p4 := mul_nonneg d0 wd
  have p5 := mul_nonneg e0 we
  have p6 := mul_nonneg f0 wf
  have q1 := mul_le_mul_of_nonneg_right a1 wa
  have q2 := mul_le_mul_of_nonneg_right b1 wb
  have q3 := mul_le_mul_of_nonneg_right c1 wc
  have q4 := mul_le_mul_of_nonneg_right d1 wd
  have q5 := mul_le_mul_of_nonneg_right e1 we
  have q6 := mul_le_mul_of_nonneg_right f1 wf
  constructor
  · exact div_nonneg (by linarith) hT.le
  · rw [div_le_iff₀ hT]
    unfold Weights.total
    linarith

/-- C7 witness: the in-range conclusion at the concrete scores
`{80,20,50,0,40,60}` with all weights `1`. -/
theorem aggregate_score_in_range_witness :
    0 ≤ (ScoreAggregator.aggregate ⟨1, 1, 1, 1, 1, 1⟩
          ⟨80, 20, 50, 0, 40, 60⟩).1 ∧
      (ScoreAggregator.aggregate ⟨1, 1, 1, 1, 1, 1⟩
          ⟨80, 20, 50, 0, 40, 60⟩).1 ≤ 100 :=
  aggregate_score_in_range ⟨1, 1, 1, 1, 1, 1⟩ ⟨80, 20, 50, 0, 40, 60⟩
    (by norm_num) (by norm_num) (by norm_num)

/-- C3: for every finite real `v`, `lo` and `hi`,
`ScoreNormalizer.normalize_inverse(v, lo, hi)` equals
`100 - ScoreNormalizer.normalize(v, lo, hi)`. -/
theorem normalize_inverse_complement (v lo hi : ℚ) :
    ScoreNormalizer.normalize_inverse v lo hi =
      100 - ScoreNormalizer.normalize v lo hi := rfl

/-- C4: for every finite real `value` and every `X`,
`ScoreNormalizer.normalize(value, X, X)` returns `0`: a degenerate range
`min == max` is not an error and maps unconditionally to score `0`. -/
theorem normalize_degenerate_zero (value X : ℚ) :
    ScoreNormalizer.normalize value X X = 0 := by
  unfold ScoreNormalizer.normalize
  simp

/-- C10: for every finite real `v` and every `X`,
`ScoreNormalizer.normalize_inverse(v, X, X)` returns `100`, and consequently
`normalize_inverse_percentage(v, X, X)` returns `100`: for the
inverse-direction functions a degenerate range yields the worst score `100`,
not the `0` that `normalize` and its ascending wrappers give. -/
theorem normalize_inverse_degenerate_100 (v X : ℚ) :
    ScoreNormalizer.normalize_inverse v X X = 100 ∧
      ScoreNormalizer.normalize_inverse_percentage v X X = 100 := by
  unfold ScoreNormalizer.normalize_inverse_percentage
    ScoreNormalizer.normalize_inverse ScoreNormalizer.normalize
  norm_num

/-- C8: whenever the dependency analysis reports an error (the target is not
a recognized Go module), `DependencyAnalyzer.analyze` returns a summary with
`score == 0` and `is_module == false`, independent of the configuration's
reference points and weights, rather than propagating the error. -/
theorem dependency_error_policy (config : DepConfig) (msg : String)
    (govulncheck_stdout : Option (List String)) :
    (DependencyAnalyzer.analyze config (Except.error msg)
        govulncheck_stdout).score = 0 ∧
      (DependencyAnalyzer.analyze config (Except.error msg)
        govulncheck_stdout).is_module = false := by
  unfold DependencyAnalyzer.analyze
  exact ⟨rfl, rfl⟩

/-- C6: `normalize_ratio(value, ideal, worst)` equals
`normalize_inverse(value, worst, ideal)` when `ideal > worst` (descending)
and `normalize(value, ideal, worst)` otherwise (ascending). -/
theorem normalize_ratio_direction (value ideal worst : ℚ) :
    (ideal > worst →
      ScoreNormalizer.normalize_ratio value ideal worst =
        ScoreNormalizer.normalize_inverse value worst ideal) ∧
    (¬ ideal > worst →
      ScoreNormalizer.normalize_ratio value ideal worst =
        ScoreNormalizer.normalize value ideal worst) := by
  unfold ScoreNormalizer.normalize_ratio
  constructor
  · intro h
    simp [h]
  · intro h
    simp [h]

/-- C6 witness: `normalize_ratio(v, 10, 1) == normalize_inverse(v, 1, 10)`
and `normalize_ratio(v, 1, 10) == normalize(v, 1, 10)` at `v = 5`. -/
theorem normalize_ratio_direction_witness :
    ScoreNormalizer.normalize_ratio 5 10 1 =
        ScoreNormalizer.normalize_inverse 5 1 10 ∧
      ScoreNormalizer.normalize_ratio 5 1 10 =
        ScoreNormalizer.normalize 5 1 10 :=
  ⟨(normalize_ratio_direction 5 10 1).1 (by norm_num),
   (normalize_ratio_direction 5 1 10).2 (by norm_num)⟩

/-- C5: `get_debt_level` returns `"high"` iff `score >= high`, `"medium"`
iff `medium <= score < high`, and `"low"` otherwise (boundary values belong
to the higher level); with thresholds `{low:0, medium:40, high:70}`:
`classify(40)="medium"`, `classify(39.999)="low"`, `classify(70)="high"`,
`classify(69.999)="medium"`. -/
theorem get_debt_level_boundaries (th : Thresholds) (score : ℚ) :
    (DebtThresholds.get_debt_level th score = "high" ↔ score ≥ th.high) ∧
    (DebtThresholds.get_debt_level th score = "medium" ↔
      th.medium ≤ score ∧ score < th.high) ∧
    (DebtThresholds.get_debt_level th score = "low" ↔
      ¬ score ≥ th.high ∧ ¬ (th.medium ≤ score ∧ score < th.high)) ∧
    (DebtThresholds.get_debt_level ⟨0, 40, 70⟩ (40 : ℚ) = "medium" ∧
      DebtThresholds.get_debt_level ⟨0, 40, 70⟩ (39.999 : ℚ) = "low" ∧
      DebtThresholds.get_debt_level ⟨0, 40, 70⟩ (70 : ℚ) = "high" ∧
      DebtThresholds.get_debt_level ⟨0, 40, 70⟩ (69.999 : ℚ) = "medium") := by
  unfold DebtThresholds.get_debt_level
  refine ⟨?_, ?_, ?_, ?_⟩
  · split_ifs with h1 h2 <;> simp_all
  · split_ifs with h1 h2 <;> simp_all
  · split_ifs with h1 h2 <;> simp_all
  · norm_num

/-- C9: in `TestQualityAnalyzer.analyze`, every non-test Go file appearing
in the coverage data is assigned a per-file coverage of exactly `70.0`
(regardless of the tool's reported coverage), so whenever at least one such
file exists the returned `average_coverage` equals `70.0`. -/
theorem test_quality_placeholder_coverage (config : TQConfig)
    (relPath : String → String) (coverage_keys go_files : List String)
    (h : ∃ f ∈ go_files, f.endsWith "_test.go" = false ∧
          coverage_keys.contains (relPath f) = true) :
    (TestQualityAnalyzer.analyze config relPath coverage_keys
        go_files).average_coverage = 70 ∧
      ∀ c ∈ (TestQualityAnalyzer.analyze config relPath coverage_keys
        go_files).covered_files, c.coverage = 70 := by
  obtain ⟨f, hf, h1, h2⟩ := h
  have hn : 1 ≤ (TestQualityAnalyzer.coverageScan coverage_keys relPath
      go_files).1 :=
    coverageScan_count_pos coverage_keys relPath go_files f hf h1 h2
  constructor
  · have key : (TestQualityAnalyzer.analyze config relPath coverage_keys
        go_files).average_coverage =
        (TestQualityAnalyzer.coverageScan coverage_keys relPath go_files).2.1 /
          ((max 1 (TestQualityAnalyzer.coverageScan coverage_keys relPath
            go_files).1 : ℕ) : ℚ) := rfl
    rw [key, coverageScan_total_eq, max_eq_right hn]
    have hne : ((TestQualityAnalyzer.coverageScan coverage_keys relPath
        go_files).1 : ℚ) ≠ 0 := by
      have : 0 < (TestQualityAnalyzer.coverageScan coverage_keys relPath
          go_files).1 := hn
      exact_mod_cast this.ne'
    exact mul_div_cancel_right₀ 70 hne
  · exact coverageScan_covered_70 coverage_keys relPath go_files

/-- C9 witness: a single non-test file `a.go` with a coverage entry yields
`average_coverage = 70`. -/
theorem test_quality_placeholder_coverage_witness :
    (TestQualityAnalyzer.analyze ⟨100, 0, 1, 0, 3, 1⟩ id ["a.go"]
        ["a.go"]).average_coverage = 70 :=
  (test_quality_placeholder_coverage ⟨100, 0, 1, 0, 3, 1⟩ id ["a.go"]
    ["a.go"] ⟨"a.go", by simp, by decide, by decide⟩).1

end TechDebt
